import Mathlib

/-!
Shallow embedding of the dspai component lifecycle/execution state machine.

Source: the Component class (Component::initialize, Component::terminate,
Component::execution_state, Component::count, Component::execute,
Component::reset), together with the LifecycleState and ExecutionState
enumerations from lifecycle.hpp and execution.hpp.

Modelling decisions:
- The three stored fields of Component become a Lean structure with the
  same field names.  The iteration counter is a std::uint64_t in the
  source, so its increment in execute is modelled as addition modulo 2^64.
- The four virtual do* hooks are external behavior: their results
  (an error code for doInitialize, a completion flag for doExecute) are
  inputs of the corresponding operation, and every operation additionally
  returns the list of hooks it invoked, so that hook-invocation claims
  can be stated.
- std::error_code is modelled by an inductive ErrorCode whose boolean
  conversion (value() != 0) is the isOk test: ok is the unique falsy
  value, everything else is an error.  The make_error_code call with
  std::errc::operation_not_permitted becomes the distinguished
  operationNotPermitted constructor.
-/

namespace dspai

/-- LifecycleState enumeration from lifecycle.hpp. -/
inductive LifecycleState
  | Uninitialized
  | Initialized
  | Terminated
deriving DecidableEq, Repr

/-- ExecutionState enumeration from execution.hpp. -/
inductive ExecutionState
  | Reset
  | Running
  | Done
deriving DecidableEq, Repr

/-- Model of std::error_code: ok is success (boolean conversion false),
operationNotPermitted models make_error_code(errc::operation_not_permitted),
and hookError models any other error value a doInitialize hook may return. -/
inductive ErrorCode
  | ok
  | operationNotPermitted
  | hookError (code : Nat)
deriving DecidableEq, Repr

/-- The boolean conversion of std::error_code, negated: true when the code
denotes success. -/
def ErrorCode.isOk : ErrorCode → Bool
  | ErrorCode.ok => true
  | ErrorCode.operationNotPermitted => false
  | ErrorCode.hookError _ => false

/-- The four overridable behavior hooks of Component. -/
inductive Hook
  | doInitialize
  | doReset
  | doExecute
  | doTerminate
deriving DecidableEq, Repr

/-- Modulus of the std::uint64_t iteration counter. -/
def UINT64_MOD : Nat := 2 ^ 64

/-- The stored fields of Component, with the default member initializers
of the source: Uninitialized, Reset, 0. -/
structure Component where
  lifecycle_state_ : LifecycleState
  execution_state_ : ExecutionState
  count_ : Nat
deriving DecidableEq, Repr

/-- A freshly constructed Component (the default member initializers). -/
def Component.new : Component :=
  ⟨LifecycleState.Uninitialized, ExecutionState.Reset, 0⟩

/-- Component::lifecycle_state: pure query of the stored lifecycle state. -/
def Component.lifecycle_state (c : Component) : LifecycleState :=
  c.lifecycle_state_

/-- Component::initialize.  Guard: if the stored lifecycle state is not
Uninitialized, return operation_not_permitted without invoking the hook.
Otherwise invoke doInitialize (its result is the hookResult input); if the
result is falsy (success) commit Initialized/Reset/0; either way return the
hook result.  The third component lists the hooks invoked. -/
def Component.initialize (c : Component) (hookResult : ErrorCode) :
    Component × ErrorCode × List Hook :=
  if c.lifecycle_state_ ≠ LifecycleState.Uninitialized then
    (c, ErrorCode.operationNotPermitted, [])
  else if hookResult.isOk then
    (⟨LifecycleState.Initialized, ExecutionState.Reset, 0⟩, hookResult,
      [Hook.doInitialize])
  else
    (c, hookResult, [Hook.doInitialize])

/-- Component::terminate.  If already Terminated, return with no effect and
no hook call; otherwise invoke doTerminate and commit Terminated/Done/0. -/
def Component.terminate (c : Component) : Component × List Hook :=
  if c.lifecycle_state_ = LifecycleState.Terminated then
    (c, [])
  else
    (⟨LifecycleState.Terminated, ExecutionState.Done, 0⟩, [Hook.doTerminate])

/-- Component::execution_state: the derived (masked) execution state. -/
def Component.execution_state (c : Component) : ExecutionState :=
  if c.lifecycle_state_ = LifecycleState.Uninitialized then
    ExecutionState.Reset
  else if c.lifecycle_state_ = LifecycleState.Terminated then
    ExecutionState.Done
  else
    c.execution_state_

/-- Component::count: 0 unless Initialized, else the stored counter. -/
def Component.count (c : Component) : Nat :=
  if c.lifecycle_state_ ≠ LifecycleState.Initialized then 0 else c.count_

/-- Component::execute.  Guards: not Initialized yields false with no
effect; stored state Done yields true with no effect.  Otherwise: move
Reset to Running, invoke doExecute (its completion flag is the hookDone
input), increment the uint64 counter, move to Done when the flag is true,
and return the flag. -/
def Component.execute (c : Component) (hookDone : Bool) :
    Component × Bool × List Hook :=
  if c.lifecycle_state_ ≠ LifecycleState.Initialized then
    (c, false, [])
  else if c.execution_state_ = ExecutionState.Done then
    (c, true, [])
  else
    let es1 := if c.execution_state_ = ExecutionState.Reset then
      ExecutionState.Running else c.execution_state_
    let es2 := if hookDone then ExecutionState.Done else es1
    (⟨c.lifecycle_state_, es2, (c.count_ + 1) % UINT64_MOD⟩, hookDone,
      [Hook.doExecute])

/-- Component::reset.  Guards: not Initialized, or already in stored state
Reset, yield no effect and no hook call; otherwise invoke doReset and
commit Reset/0. -/
def Component.reset (c : Component) : Component × List Hook :=
  if c.lifecycle_state_ ≠ LifecycleState.Initialized then
    (c, [])
  else if c.execution_state_ = ExecutionState.Reset then
    (c, [])
  else
    (⟨c.lifecycle_state_, ExecutionState.Reset, 0⟩, [Hook.doReset])

/-- IExecution::is_ready: Initialized and visible state Reset or Running. -/
def Component.is_ready (c : Component) : Bool :=
  if c.lifecycle_state ≠ LifecycleState.Initialized then false
  else
    decide (c.execution_state = ExecutionState.Reset) ||
      decide (c.execution_state = ExecutionState.Running)

/-- One public operation together with the environment choice for the hook
it may invoke: the doInitialize result for initialize, the doExecute
completion flag for execute. -/
inductive Op
  | callInitialize (hookResult : ErrorCode)
  | callTerminate
  | callExecute (hookDone : Bool)
  | callReset
deriving DecidableEq, Repr

/-- The state reached after one public operation (hook lists and return
values discarded). -/
def Component.step (c : Component) : Op → Component
  | Op.callInitialize e => Prod.fst <| c.initialize e
  | Op.callTerminate => (c.terminate).1
  | Op.callExecute b => (c.execute b).1
  | Op.callReset => (c.reset).1

/-- The state reached after a sequence of public operations. -/
def Component.run (c : Component) : List Op → Component
  | [] => c
  | op :: ops => Component.run (c.step op) ops

/-- A state is reachable when some sequence of public operations takes a
freshly constructed Component to it. -/
def Reachable (c : Component) : Prop :=
  ∃ ops : List Op, Component.run Component.new ops = c

/-- The state and the total number of doTerminate invocations after n
consecutive terminate calls. -/
def terminateRun (c : Component) : Nat → Component × Nat
  | 0 => (c, 0)
  | n + 1 =>
    ((terminateRun (c.terminate).1 n).1,
      (c.terminate).2.length + (terminateRun (c.terminate).1 n).2)

/-! The two inductive invariants used by the reachability claims. -/

/-- Invariant: outside the Initialized lifecycle state the stored counter
is zero. -/
def CounterInv (c : Component) : Prop :=
  c.lifecycle_state_ ≠ LifecycleState.Initialized → c.count_ = 0

/-- Invariant: while Initialized with stored execution state Reset, the
stored counter is zero. -/
def ResetCountInv (c : Component) : Prop :=
  c.lifecycle_state_ = LifecycleState.Initialized →
    c.execution_state_ = ExecutionState.Reset → c.count_ = 0

/-! Generic machinery: invariants preserved by every step hold in every
reachable state, and the wrap-around behavior of long execute runs. -/

/-- A predicate preserved by every single operation is preserved by every
operation sequence. -/
lemma run_preserves (P : Component → Prop)
    (hstep : ∀ c op, P c → P (c.step op)) :
    ∀ (ops : List Op) (c : Component), P c → P (Component.run c ops) := by
  intro ops
  induction ops with
  | nil => intro c h; exact h
  | cons op ops ih =>
    intro c h
    exact ih (c.step op) (hstep c op h)

/-- A predicate preserved by every operation and true of a fresh Component
holds in every reachable state. -/
lemma reachable_invariant (P : Component → Prop)
    (hnew : P Component.new)
    (hstep : ∀ c op, P c → P (c.step op)) :
    ∀ c, Reachable c → P c := by
  intro c hc
  obtain ⟨ops, hops⟩ := hc
  rw [← hops]
  exact run_preserves P hstep ops Component.new hnew

/-- Running a block of n execute calls whose hook never reports completion
from an Initialized, Running state leaves the state Running and advances
the uint64 counter by n modulo 2^64. -/
lemma run_replicate_execute_false (n k : Nat) :
    Component.run
        ⟨LifecycleState.Initialized, ExecutionState.Running, k % UINT64_MOD⟩
        (List.replicate n (Op.callExecute false)) =
      ⟨LifecycleState.Initialized, ExecutionState.Running,
        (k + n) % UINT64_MOD⟩ := by
  induction n generalizing k with
  | zero => simp [Component.run]
  | succ n ih =>
    have hstep :
        Component.step
            ⟨LifecycleState.Initialized, ExecutionState.Running,
              k % UINT64_MOD⟩ (Op.callExecute false) =
          ⟨LifecycleState.Initialized, ExecutionState.Running,
            (k + 1) % UINT64_MOD⟩ := by
      simp [Component.step, Component.execute, Nat.mod_add_mod]
    have harith : k + (n + 1) = (k + 1) + n := by omega
    rw [List.replicate_succ]
    simp only [Component.run]
    rw [hstep, harith]
    exact ih (k + 1)

/-- An Initialized, Running state whose counter is (1 + n) mod 2^64 is
reachable: initialize successfully, then execute n + 1 times with the work
hook never reporting completion. -/
lemma reachable_running (n : Nat) :
    Reachable ⟨LifecycleState.Initialized, ExecutionState.Running,
      (1 + n) % UINT64_MOD⟩ := by
  refine ⟨Op.callInitialize ErrorCode.ok :: Op.callExecute false ::
    List.replicate n (Op.callExecute false), ?_⟩
  have h1 : Component.step Component.new (Op.callInitialize ErrorCode.ok) =
      ⟨LifecycleState.Initialized, ExecutionState.Reset, 0⟩ := by
    simp [Component.step, Component.new, Component.initialize, ErrorCode.isOk]
  have h2 : Component.step
      ⟨LifecycleState.Initialized, ExecutionState.Reset, 0⟩
      (Op.callExecute false) =
      ⟨LifecycleState.Initialized, ExecutionState.Running,
        1 % UINT64_MOD⟩ := by
    simp [Component.step, Component.execute]
  simp only [Component.run]
  rw [h1, h2]
  exact run_replicate_execute_false n 1

/-- The Initialized, Running state with the counter at its uint64 maximum
2^64 - 1 is reachable. -/
lemma reachable_running_max :
    Reachable ⟨LifecycleState.Initialized, ExecutionState.Running,
      2 ^ 64 - 1⟩ := by
  have h := reachable_running (2 ^ 64 - 2)
  have e1 : 1 + (2 ^ 64 - 2) = 2 ^ 64 - 1 := by norm_num
  have e2 : (2 ^ 64 - 1) % UINT64_MOD = 2 ^ 64 - 1 := by
    unfold UINT64_MOD
    exact Nat.mod_eq_of_lt (by norm_num)
  rw [e1, e2] at h
  exact h

/-- The Initialized, Running state with counter 0 is reachable: after
2^64 execute calls the uint64 counter has wrapped around to 0 while the
execution state is still Running. -/
lemma reachable_running_zero :
    Reachable ⟨LifecycleState.Initialized, ExecutionState.Running, 0⟩ := by
  have h := reachable_running (2 ^ 64 - 1)
  have e1 : 1 + (2 ^ 64 - 1) = 2 ^ 64 := by norm_num
  have e2 : 2 ^ 64 % UINT64_MOD = 0 := by
    unfold UINT64_MOD
    exact Nat.mod_self _
  rw [e1, e2] at h
  exact h

lemma counterInv_step (c : Component) (op : Op) (h : CounterInv c) :
    CounterInv (c.step op) := by
  unfold CounterInv at h ⊢
  cases op <;>
    simp only [Component.step, Component.initialize, Component.terminate,
      Component.execute, Component.reset] <;>
    split_ifs <;> simp_all

lemma resetCountInv_step (c : Component) (op : Op) (hc : CounterInv c)
    (h : ResetCountInv c) : ResetCountInv (c.step op) := by
  unfold CounterInv at hc
  unfold ResetCountInv at h ⊢
  cases op <;>
    simp only [Component.step, Component.initialize, Component.terminate,
      Component.execute, Component.reset] <;>
    split_ifs <;> simp_all

/-- Every reachable state satisfies both counter invariants. -/
lemma reachable_counter_invs (c : Component) (hc : Reachable c) :
    CounterInv c ∧ ResetCountInv c := by
  refine reachable_invariant (fun s => CounterInv s ∧ ResetCountInv s)
    ⟨?_, ?_⟩ ?_ c hc
  · intro h
    rfl
  · intro h1 h2
    rfl
  · intro s op hs
    exact ⟨counterInv_step s op hs.1,
      resetCountInv_step s op hs.1 hs.2⟩

/-- The state returned by terminate always has lifecycle state Terminated. -/
lemma terminate_lifecycle (c : Component) :
    ((c.terminate).1).lifecycle_state_ = LifecycleState.Terminated := by
  unfold Component.terminate
  split_ifs with h
  · exact h
  · rfl

/-- terminate on an already Terminated component is a no-op with no hook. -/
lemma terminate_of_terminated (c : Component)
    (h : c.lifecycle_state_ = LifecycleState.Terminated) :
    c.terminate = (c, []) := by
  simp [Component.terminate, h]

/-- Any number of terminate calls on an already Terminated component does
nothing and never invokes the hook. -/
lemma terminateRun_of_terminated (c : Component)
    (h : c.lifecycle_state_ = LifecycleState.Terminated) (n : Nat) :
    terminateRun c n = (c, 0) := by
  induction n with
  | zero => rfl
  | succ n ih =>
    simp [terminateRun, terminate_of_terminated c h, ih]

/-! The claim theorems. -/

/-- Claim C2: when initialize is called on a component whose lifecycle
state is Uninitialized, the doInitialize hook is invoked exactly once and
its result is returned; if the hook succeeds the component becomes
Initialized with execution state Reset and counter 0, and if the hook
fails no field changes, so the lifecycle state remains Uninitialized. -/
theorem C2_initialize_from_uninitialized (c : Component) (e : ErrorCode)
    (h : c.lifecycle_state_ = LifecycleState.Uninitialized) :
    (e.isOk = true →
      Component.initialize c e =
        (⟨LifecycleState.Initialized, ExecutionState.Reset, 0⟩, e,
          [Hook.doInitialize])) ∧
    (e.isOk = false →
      Component.initialize c e = (c, e, [Hook.doInitialize])) := by
  constructor <;> intro he <;> simp [ Component.initialize, h, he]

theorem C2_witness :
    Component.initialize Component.new ErrorCode.ok =
      (⟨LifecycleState.Initialized, ExecutionState.Reset, 0⟩, ErrorCode.ok,
        [Hook.doInitialize]) :=
  (C2_initialize_from_uninitialized Component.new ErrorCode.ok rfl).1 rfl

/-- Claim C3: terminate is callable from any state and idempotent.  A call
from a non-Terminated state invokes the doTerminate hook once and commits
Terminated, raw execution state Done, counter 0; a call while already
Terminated is a no-op that does not invoke the hook.  After any terminate
call the visible execution state is Done and count() is 0, n + 1
consecutive calls end in the same state as one call, and the total number
of hook invocations over n + 1 consecutive calls is exactly one when the
start state was not Terminated and zero when it was. -/
theorem C3_terminate_idempotent (c : Component) :
    (c.lifecycle_state_ ≠ LifecycleState.Terminated →
      c.terminate = (⟨LifecycleState.Terminated, ExecutionState.Done, 0⟩,
        [Hook.doTerminate])) ∧
    (c.lifecycle_state_ = LifecycleState.Terminated → c.terminate = (c, [])) ∧
    Component.execution_state (c.terminate).1 = ExecutionState.Done ∧
    Component.count (c.terminate).1 = 0 ∧
    (∀ n : Nat, (terminateRun c (n + 1)).1 = (c.terminate).1) ∧
    (c.lifecycle_state_ ≠ LifecycleState.Terminated →
      ∀ n : Nat, (terminateRun c (n + 1)).2 = 1) ∧
    (c.lifecycle_state_ = LifecycleState.Terminated →
      ∀ n : Nat, (terminateRun c n).2 = 0) := by
  have hT := terminate_lifecycle c
  refine ⟨fun h => by simp [Component.terminate, h], terminate_of_terminated c,
    ?_, ?_, ?_, ?_, ?_⟩
  · simp [Component.execution_state, hT]
  · simp [Component.count, hT]
  · intro n
    simp [terminateRun, terminateRun_of_terminated ((c.terminate).1) hT n]
  · intro h n
    have h1 : c.terminate = (⟨LifecycleState.Terminated, ExecutionState.Done,
        0⟩, [Hook.doTerminate]) := by
      simp [Component.terminate, h]
    have h2 := terminateRun_of_terminated
      (⟨LifecycleState.Terminated, ExecutionState.Done, 0⟩ : Component) rfl n
    simp [terminateRun, h1, h2]
  · intro h n
    simp [terminateRun_of_terminated c h n]

theorem C3_witness :
    (Component.mk LifecycleState.Initialized ExecutionState.Running
        5).terminate =
      (⟨LifecycleState.Terminated, ExecutionState.Done, 0⟩,
        [Hook.doTerminate]) :=
  (C3_terminate_idempotent _).1 (by decide)

/-- Claim C4: Terminated is absorbing.  From any component state whose
lifecycle state is Terminated, each of the four public operations leaves
every stored field unchanged, invokes no hook, and the component remains
Terminated; initialize additionally reports operation_not_permitted,
execute returns false, terminate and reset return nothing. -/
theorem C4_terminated_absorbing (c : Component)
    (h : c.lifecycle_state_ = LifecycleState.Terminated) :
    (∀ e : ErrorCode,
      Component.initialize c e = (c, ErrorCode.operationNotPermitted, [])) ∧
    c.terminate = (c, []) ∧
    (∀ b : Bool, c.execute b = (c, false, [])) ∧
    c.reset = (c, []) ∧
    c.lifecycle_state = LifecycleState.Terminated := by
  refine ⟨fun e => ?_, ?_, fun b => ?_, ?_, h⟩ <;>
    simp [ Component.initialize, Component.terminate, Component.execute,
      Component.reset, h]

theorem C4_witness :
    (Component.mk LifecycleState.Terminated ExecutionState.Done 0).terminate
        = (Component.mk LifecycleState.Terminated ExecutionState.Done 0,
          []) ∧
      (Component.mk LifecycleState.Terminated ExecutionState.Done 0).reset
        = (Component.mk LifecycleState.Terminated ExecutionState.Done 0,
          []) :=
  ⟨(C4_terminated_absorbing _ rfl).2.1,
    (C4_terminated_absorbing _ rfl).2.2.2.1⟩

/-- Claim C6: for every component state, execution_state() returns the
derived masked value: Reset when the lifecycle state is Uninitialized,
Done when it is Terminated, and the raw stored execution state when it is
Initialized. -/
theorem C6_execution_state_masked (c : Component) :
    (c.lifecycle_state_ = LifecycleState.Uninitialized →
      c.execution_state = ExecutionState.Reset) ∧
    (c.lifecycle_state_ = LifecycleState.Terminated →
      c.execution_state = ExecutionState.Done) ∧
    (c.lifecycle_state_ = LifecycleState.Initialized →
      c.execution_state = c.execution_state_) := by
  refine ⟨fun h => ?_, fun h => ?_, fun h => ?_⟩ <;>
    simp [Component.execution_state, h]

theorem C6_witness :
    (Component.mk LifecycleState.Uninitialized ExecutionState.Done
        3).execution_state = ExecutionState.Reset :=
  (C6_execution_state_masked _).1 rfl

/-- Claim C7: the guard cases of execute are safe no-ops.  Called while
the lifecycle state is not Initialized it returns false, invokes no hook
and changes no field; called while Initialized with visible execution
state Done it returns true, invokes no hook and changes no field (so
count() is unchanged in both cases). -/
theorem C7_execute_guard_noops (c : Component) (b : Bool) :
    (c.lifecycle_state_ ≠ LifecycleState.Initialized →
      c.execute b = (c, false, [])) ∧
    (c.lifecycle_state_ = LifecycleState.Initialized →
      c.execution_state = ExecutionState.Done →
      c.execute b = (c, true, [])) := by
  constructor
  · intro h
    simp [Component.execute, h]
  · intro h1 h2
    have h3 : c.execution_state_ = ExecutionState.Done := by
      simpa [Component.execution_state, h1] using h2
    simp [Component.execute, h1, h3]

theorem C7_witness :
    Component.execute Component.new true = (Component.new, false, []) ∧
    Component.execute (Component.mk LifecycleState.Initialized
        ExecutionState.Done 3) false =
      (Component.mk LifecycleState.Initialized ExecutionState.Done 3, true,
        []) :=
  ⟨(C7_execute_guard_noops Component.new true).1 (by decide),
    (C7_execute_guard_noops _ false).2 rfl (by decide)⟩

/-- Claim C8: calling initialize while the lifecycle state is not
Uninitialized returns the operation_not_permitted error kind, invokes no
hook and changes no field; in particular a second initialize after a
successful one leaves the component Initialized with execution state and
counter unchanged. -/
theorem C8_initialize_not_permitted (c : Component) (e : ErrorCode)
    (h : c.lifecycle_state_ ≠ LifecycleState.Uninitialized) :
    Component.initialize c e = (c, ErrorCode.operationNotPermitted, []) := by
  simp [ Component.initialize, h]

theorem C8_witness :
    Component.initialize
        (Component.mk LifecycleState.Initialized ExecutionState.Reset 0)
        ErrorCode.ok =
      (Component.mk LifecycleState.Initialized ExecutionState.Reset 0,
        ErrorCode.operationNotPermitted, []) :=
  C8_initialize_not_permitted _ _ (by decide)

/-- Claim C9: the no-op and idempotence contract of reset.  While the
lifecycle state is not Initialized it is a no-op with no hook call; while
the stored execution state is already Reset it is a no-op that does not
invoke doReset; otherwise it invokes doReset once, sets the execution
state to Reset and the counter to 0.  Over any two consecutive reset
calls the hook is invoked at most once. -/
theorem C9_reset_contract (c : Component) :
    (c.lifecycle_state_ ≠ LifecycleState.Initialized → c.reset = (c, [])) ∧
    (c.lifecycle_state_ = LifecycleState.Initialized →
      c.execution_state_ = ExecutionState.Reset → c.reset = (c, [])) ∧
    (c.lifecycle_state_ = LifecycleState.Initialized →
      c.execution_state_ ≠ ExecutionState.Reset →
      c.reset = (⟨LifecycleState.Initialized, ExecutionState.Reset, 0⟩,
        [Hook.doReset])) ∧
    (c.reset).2.length + (((c.reset).1).reset).2.length ≤ 1 := by
  refine ⟨fun h => by simp [Component.reset, h],
    fun h1 h2 => by simp [Component.reset, h1, h2],
    fun h1 h2 => by simp [Component.reset, h1, h2], ?_⟩
  by_cases h1 : c.lifecycle_state_ = LifecycleState.Initialized
  · by_cases h2 : c.execution_state_ = ExecutionState.Reset
    · simp [Component.reset, h1, h2]
    · simp [Component.reset, h1, h2]
  · simp [Component.reset, h1]

theorem C9_witness :
    Component.reset (Component.mk LifecycleState.Initialized
        ExecutionState.Running 4) =
      (Component.mk LifecycleState.Initialized ExecutionState.Reset 0,
        [Hook.doReset]) :=
  (C9_reset_contract _).2.2.1 rfl (by decide)

/-- Claim C1 (amended): for every component whose lifecycle state is
Initialized and whose visible execution state is Reset or Running,
execute invokes the doExecute hook exactly once, returns the completion
flag of the hook, leaves the component Initialized, ends with execution
state Done exactly when the flag is true and Running otherwise (a Reset
state passes through Running first), and advances the counter by one
modulo 2^64: the stored counter is a uint64, so from 2^64 - 1 it wraps to
0 rather than incrementing by exactly 1. -/
theorem C1_execute_step (c : Component) (hd : Bool)
    (h1 : c.lifecycle_state_ = LifecycleState.Initialized)
    (h2 : c.execution_state ≠ ExecutionState.Done) :
    (c.execute hd).2.2 = [Hook.doExecute] ∧
    (c.execute hd).2.1 = hd ∧
    (c.execute hd).1 =
      ⟨LifecycleState.Initialized,
        (if hd then ExecutionState.Done else ExecutionState.Running),
        (c.count_ + 1) % UINT64_MOD⟩ ∧
    Component.count (c.execute hd).1 =
      (Component.count c + 1) % UINT64_MOD := by
  have h3 : c.execution_state_ ≠ ExecutionState.Done := by
    simpa [Component.execution_state, h1] using h2
  have h4 : (if c.execution_state_ = ExecutionState.Reset then
      ExecutionState.Running else c.execution_state_) =
      ExecutionState.Running := by
    cases hE : c.execution_state_ <;> simp_all
  simp [Component.execute, Component.count, h1, h3, h4]

theorem C1_witness :
    (Component.execute (Component.mk LifecycleState.Initialized
        ExecutionState.Reset 0) true).2.1 = true :=
  (C1_execute_step _ true rfl (by decide)).2.1

/-- Claim C1 counterexample: the Initialized, Running component whose
counter holds the uint64 maximum 2^64 - 1 is reachable and lies in the
scope of the claim, yet execute does not increment count() by exactly 1
there: the counter wraps around to 0. -/
theorem C1_counterexample :
    Reachable (Component.mk LifecycleState.Initialized
      ExecutionState.Running (2 ^ 64 - 1)) ∧
    Component.execution_state (Component.mk LifecycleState.Initialized
      ExecutionState.Running (2 ^ 64 - 1)) = ExecutionState.Running ∧
    ¬ Component.count (Component.execute
        (Component.mk LifecycleState.Initialized ExecutionState.Running
          (2 ^ 64 - 1)) false).1 =
      Component.count (Component.mk LifecycleState.Initialized
        ExecutionState.Running (2 ^ 64 - 1)) + 1 := by
  refine ⟨reachable_running_max, rfl, ?_⟩
  intro hEq
  simp [Component.execute, Component.count, UINT64_MOD] at hEq

/-- Claim C5: invariant I1 holds in every reachable state: whenever the
lifecycle state is not Initialized, count() returns 0, and the stored
counter is in fact 0 as well. -/
theorem C5_counter_zero_outside_initialized (c : Component)
    (hr : Reachable c)
    (h : c.lifecycle_state ≠ LifecycleState.Initialized) :
    Component.count c = 0 ∧ c.count_ = 0 := by
  have h0 : c.lifecycle_state_ ≠ LifecycleState.Initialized := h
  have hInv := (reachable_counter_invs c hr).1
  unfold CounterInv at hInv
  exact ⟨by simp [Component.count, h0], hInv h0⟩

theorem C5_witness :
    Component.count Component.new = 0 ∧ Component.new.count_ = 0 :=
  C5_counter_zero_outside_initialized Component.new ⟨[], rfl⟩ (by decide)

/-- Claim C10 (amended): in every reachable state with lifecycle state
Initialized, visible execution state Reset implies count() = 0, so the
early return of reset never skips a needed counter clear.  The converse
direction of the original claim is false: the counter is a uint64 and
wraps, so a reachable Initialized component can report Running while
count() reads 0. -/
theorem C10_reset_implies_count_zero (c : Component) (hr : Reachable c)
    (h1 : c.lifecycle_state = LifecycleState.Initialized)
    (h2 : c.execution_state = ExecutionState.Reset) :
    Component.count c = 0 := by
  have h1x : c.lifecycle_state_ = LifecycleState.Initialized := h1
  have hInv := (reachable_counter_invs c hr).2
  have h3 : c.execution_state_ = ExecutionState.Reset := by
    simpa [Component.execution_state, h1x] using h2
  simp [Component.count, h1x, hInv h1x h3]

theorem C10_witness :
    Component.count (Component.mk LifecycleState.Initialized
      ExecutionState.Reset 0) = 0 :=
  C10_reset_implies_count_zero _
    ⟨[Op.callInitialize ErrorCode.ok], rfl⟩ rfl rfl

/-- Claim C10 counterexample: the Initialized component that reports
Running with count() = 0 is reachable (initialize, then 2^64 execute
calls whose hook never reports completion: the uint64 counter wraps to
0), refuting that count() = 0 happens only in the Reset state. -/
theorem C10_counterexample :
    Reachable (Component.mk LifecycleState.Initialized
      ExecutionState.Running 0) ∧
    Component.lifecycle_state (Component.mk LifecycleState.Initialized
      ExecutionState.Running 0) = LifecycleState.Initialized ∧
    Component.count (Component.mk LifecycleState.Initialized
      ExecutionState.Running 0) = 0 ∧
    Component.execution_state (Component.mk LifecycleState.Initialized
      ExecutionState.Running 0) ≠ ExecutionState.Reset :=
  ⟨reachable_running_zero, rfl, rfl, by decide⟩

end dspai
